import Mathlib

/-!
Shallow embedding of the find-a-house ingestion-and-filtering pipeline
(src/scrapers/base_scraper.py, src/core/filter.py, src/core/aggregator.py,
src/core/database.py), with theorems checking the claims of the
specification.

Strings are modelled as Lean `String`/`List Char`; the Python `str.lower`,
`str.strip`, `str.split`, `str.title` and the few fixed regular expressions
used by the code are translated into explicit executable functions below.
Python `float` arithmetic (the single expression `int(price * 4.33)`) is
modelled as exact rational truncation `price * 433 / 100`; at every input
considered here the double-precision product is exact, so the two agree.
-/

namespace FindAHouse

/-- ASCII lower-casing of one character, as Python `str.lower` acts on the
ASCII range (all text this program handles is ASCII plus the euro sign,
which is unchanged). -/
def lowerChar (c : Char) : Char :=
  match c with
  | 'A' => 'a' | 'B' => 'b' | 'C' => 'c' | 'D' => 'd' | 'E' => 'e' | 'F' => 'f'
  | 'G' => 'g' | 'H' => 'h' | 'I' => 'i' | 'J' => 'j' | 'K' => 'k' | 'L' => 'l'
  | 'M' => 'm' | 'N' => 'n' | 'O' => 'o' | 'P' => 'p' | 'Q' => 'q' | 'R' => 'r'
  | 'S' => 's' | 'T' => 't' | 'U' => 'u' | 'V' => 'v' | 'W' => 'w' | 'X' => 'x'
  | 'Y' => 'y' | 'Z' => 'z' | other => other

/-- ASCII upper-casing of one character (used by Python `str.title`). -/
def upperChar (c : Char) : Char :=
  if 'a' ≤ c ∧ c ≤ 'z' then Char.ofNat (c.toNat - 32) else c

/-- Python `s.lower()` on a string. -/
def lowerStr (s : String) : String :=
  String.mk (s.toList.map lowerChar)

/-- Containment of `a` as a contiguous run of `b`. -/
def isSubstrList (a : List Char) : List Char → Bool
  | [] => a.isEmpty
  | b :: rest => a.isPrefixOf (b :: rest) || isSubstrList a rest

/-- Python substring containment `a in b`. -/
def isSubstr (a b : String) : Bool :=
  isSubstrList a.toList b.toList

/-- Regex word character (`\w`): letter, digit or underscore. -/
def isWordChar (c : Char) : Bool :=
  c.isAlphanum || c == '_'

/-- Maximal runs of characters satisfying `p`, in order (the skeleton of
`re.findall` for a single character class). `acc` is the current run,
reversed. -/
def runsByAux (p : Char → Bool) : List Char → List Char → List (List Char)
  | [], acc => if acc.isEmpty then [] else [acc.reverse]
  | c :: rest, acc =>
    if p c then runsByAux p rest (c :: acc)
    else if acc.isEmpty then runsByAux p rest []
    else acc.reverse :: runsByAux p rest []

/-- Maximal runs of characters satisfying `p`. -/
def runsBy (p : Char → Bool) (l : List Char) : List (List Char) :=
  runsByAux p l []

/-- `re.findall(r"\d+", s)`: the maximal digit runs of `s`. -/
def digitRuns (l : List Char) : List (List Char) :=
  runsBy Char.isDigit l

/-- The number denoted by a run of decimal digits (Python `int` on it). -/
def natOfDigits (l : List Char) : Nat :=
  l.foldl (fun n c => n * 10 + (c.toNat - 48)) 0

/-- `BaseScraper._normalize_price` (src/scrapers/base_scraper.py:102):
lower-case, detect a weekly-period keyword, drop commas, take the maximal
digit runs; the first run is the price, except that a first run below 100
followed by a second run means a split thousands group and the two are
concatenated; weekly prices are scaled by 4.33 and truncated. -/
def normalize_price (price_str : String) : Nat :=
  if price_str = "" then 0
  else
    let s := lowerStr price_str
    let is_weekly := ["per week", "/week", "pw", "p/w", "weekly"].any
      (fun w => isSubstr w s)
    let digits := digitRuns ((s.toList).filter (fun c => c ≠ ','))
    match digits with
    | [] => 0
    | d0 :: rest =>
      let price := natOfDigits d0
      let price :=
        match rest with
        | [] => price
        | d1 :: _ => if price < 100 then natOfDigits (d0 ++ d1) else price
      if is_weekly then price * 433 / 100 else price

/-- Python `s.replace(pat, rep)` on character lists: replace the
non-overlapping occurrences of `pat` left to right. `fuel` bounds the scan
(one unit per consumed character; the callers pass the length of the list,
which always suffices, and only ever use a non-empty `pat`). -/
def replaceAllAux (pat rep : List Char) : Nat → List Char → List Char
  | 0, l => l
  | _ + 1, [] => []
  | fuel + 1, c :: rest =>
    if pat ≠ [] ∧ pat.isPrefixOf (c :: rest) then
      rep ++ replaceAllAux pat rep fuel (rest.drop (pat.length - 1))
    else c :: replaceAllAux pat rep fuel rest

/-- Python `s.replace(pat, rep)` on character lists. -/
def replaceAll (pat rep l : List Char) : List Char :=
  replaceAllAux pat rep l.length l

/-- Python `s.strip()`: drop whitespace at both ends. -/
def trimList (l : List Char) : List Char :=
  ((l.dropWhile Char.isWhitespace).reverse.dropWhile Char.isWhitespace).reverse

/-- The tail of the regex `\bCo\.?\s*` after the literal `co` has matched:
consume an optional dot, then any run of whitespace. Returns whether the
last character the whole match consumed is a word character (it is the `o`
exactly when neither a dot nor any whitespace was consumed), and the rest
of the text. -/
def afterCo : List Char → Bool × List Char
  | '.' :: r => (false, r.dropWhile Char.isWhitespace)
  | r =>
    let r2 := r.dropWhile Char.isWhitespace
    (r2.length == r.length, r2)

/-- `re.sub(r"\bCo\.?\s*", "", text, flags=IGNORECASE)`: scan left to
right; at every position preceded by a non-word character (or the start),
a case-insensitive `co`, an optional dot and the following whitespace are
deleted; scanning resumes right after the deleted match, every other
character is kept. `prevWord` records whether the previous character of
the original text is a word character (the `\b` state); `fuel` bounds the
scan (one unit per step, each of which consumes at least one character, so
the length of the list suffices). -/
def removeCoAux : Nat → Bool → List Char → List Char
  | 0, _, l => l
  | _ + 1, _, [] => []
  | _ + 1, _, [c1] => [c1]
  | fuel + 1, prevWord, c1 :: c2 :: rest2 =>
    if !prevWord ∧ (c1 = 'c' ∨ c1 = 'C') ∧ (c2 = 'o' ∨ c2 = 'O') then
      removeCoAux fuel (afterCo rest2).1 (afterCo rest2).2
    else c1 :: removeCoAux fuel (isWordChar c1) (c2 :: rest2)

/-- `re.sub(r"\bCo\.?\s*", "", text, flags=IGNORECASE)` from the start of
the text. -/
def removeCo (l : List Char) : List Char :=
  removeCoAux l.length false l

/-- Python `" ".join(s.split())`: the words of `s` (maximal runs of
non-whitespace) joined by single spaces. -/
def collapseWs (l : List Char) : List Char :=
  List.intercalate [' '] (runsBy (fun c => !c.isWhitespace) l)

/-- Python `s.title()` on ASCII text: a letter is upper-cased when the
previous character is not a letter, lower-cased otherwise. -/
def titleCaseAux : Bool → List Char → List Char
  | _, [] => []
  | prevCased, c :: rest =>
    (if c.isAlpha then (if prevCased then lowerChar c else upperChar c) else c)
      :: titleCaseAux c.isAlpha rest

/-- `BaseScraper._normalize_area` (src/scrapers/base_scraper.py:147):
strip, delete every `\bCo\.?\s*` match, collapse whitespace, title-case. -/
def normalize_area (area_str : String) : String :=
  if area_str = "" then ""
  else
    String.mk (titleCaseAux false
      (collapseWs (removeCo (trimList area_str.toList))))

/-- The canonical `Listing` dataclass (src/scrapers/base_scraper.py:12).
`price` is the monthly rent, `0` if unknown; `bedrooms` is `0` for a
studio, with `-1` used as the "unknown" sentinel. `posted_at` is kept as
its ISO string when present. -/
structure Listing where
  id : String
  source : String
  title : String
  price : Int
  bedrooms : Int
  bathrooms : Int := 1
  property_type : String := ""
  area : String := ""
  address : String := ""
  url : String := ""
  image_url : String := ""
  description : String := ""
  features : List String := []
  contact_email : String := ""
  contact_phone : String := ""
  posted_at : Option String := none
deriving Repr, DecidableEq

/-- The `MatchResult` dataclass (src/core/filter.py:11). The Python field
defaults (`""` for `reason` and `search_name`) are always written out
explicitly below. -/
structure MatchResult where
  «matches» : Bool
  reason : String
  search_name : String
deriving Repr, DecidableEq

/-- Python truthiness of a `MatchResult` value. The dataclass defines
neither `__bool__` nor `__len__`, so every instance is truthy — this is
what `if self.filter_manager.matches_any(listing):` in
`ListingAggregator.process_new_listings` actually tests. -/
def MatchResult.toBool (_ : MatchResult) : Bool :=
  true

/-- A `SearchFilter` as it stands after `__init__` (src/core/filter.py:23):
all keyword lists already lower-cased, `max_price`/`max_beds` of `none`
standing for the `float("inf")` default (a comparison against it is never
true). -/
structure SearchFilter where
  name : String
  active : Bool
  min_price : Int
  max_price : Option Int
  min_beds : Int
  max_beds : Option Int
  areas : List String
  property_types : List String
  must_have : List String
  nice_to_have : List String
  exclude_keywords : List String
deriving Repr, DecidableEq

/-- A search-profile configuration dict as read from config (the raw,
un-lowercased strings), with the `dict.get` defaults of `__init__`. -/
structure SearchConfig where
  name : String := "Unnamed Search"
  active : Bool := true
  min_price : Int := 0
  max_price : Option Int := none
  min_beds : Int := 0
  max_beds : Option Int := none
  areas : List String := []
  property_types : List String := []
  must_have : List String := []
  nice_to_have : List String := []
  exclude_keywords : List String := []
deriving Repr

/-- `SearchFilter.__init__` (src/core/filter.py:23): store the config
values, lower-casing the keyword lists. -/
def SearchFilter.ofConfig (c : SearchConfig) : SearchFilter where
  name := c.name
  active := c.active
  min_price := c.min_price
  max_price := c.max_price
  min_beds := c.min_beds
  max_beds := c.max_beds
  areas := c.areas.map lowerStr
  property_types := c.property_types.map lowerStr
  must_have := c.must_have.map lowerStr
  nice_to_have := c.nice_to_have.map lowerStr
  exclude_keywords := c.exclude_keywords.map lowerStr

/-- `v > limit` where `limit` of `none` stands for `float("inf")` (the
comparison is then never true). -/
def exceedsMax (limit : Option Int) (v : Int) : Bool :=
  match limit with
  | some m => v > m
  | none => false

/-- Whether the head of `t` is a word character (`false` at the end of the
text: the regex word-boundary convention). -/
def headIsWord : List Char → Bool
  | [] => false
  | c :: _ => isWordChar c

/-- Match the literal digit string `n` followed by `\b` at the head of
`t`. -/
def matchNumB (n : List Char) (t : List Char) : Bool :=
  n.isPrefixOf t && (isWordChar (n.getLastD ' ') != headIsWord (t.drop n.length))

/-- Match `\s*{n}\b` at the head of `t` (the tail of the regex
`dublin\s*{n}\b`), with the usual backtracking over the whitespace run. -/
def matchWsNum (n : List Char) : List Char → Bool
  | [] => matchNumB n []
  | c :: rest => matchNumB n (c :: rest) || (c.isWhitespace && matchWsNum n rest)

/-- `re.search(f"dublin\\s*{n}\\b", t)`: try the pattern at every
position. -/
def searchDublinNum (n : List Char) : List Char → Bool
  | [] => false
  | c :: rest =>
    ("dublin".toList.isPrefixOf (c :: rest) && matchWsNum n ((c :: rest).drop 6))
      || searchDublinNum n rest

/-- `re.search(f"\\bd{n}\\b", t)`: `prevWord` is the word-character status
of the previous character (the `\b` state before the `d`). -/
def searchBDAux (n : List Char) (prevWord : Bool) : List Char → Bool
  | [] => false
  | c :: rest =>
    (!prevWord && c == 'd' && matchNumB n rest) || searchBDAux n (isWordChar c) rest

/-- `re.search(f"\\bd{n}\\b", t)` from the start of the text. -/
def searchBD (n : List Char) (t : List Char) : Bool :=
  searchBDAux n false t

/-- `SearchFilter._matches_any_area` (src/core/filter.py:124): for each
configured (lower-cased) area, first a direct substring test against the
lower-cased location text; then, when the configured area starts with
"dublin", the two regex patterns built from the remaining number. -/
def matchesAnyArea (areas : List String) (location_text : String) : Bool :=
  if areas.isEmpty then true
  else
    let loc := (lowerStr location_text).toList
    areas.any fun area =>
      isSubstrList area.toList loc ||
      (if "dublin".toList.isPrefixOf area.toList then
        let areaNum := trimList (replaceAll "dublin".toList [] area.toList)
        if ¬areaNum.isEmpty then
          searchDublinNum areaNum loc || searchBD areaNum loc
        else false
      else false)

/-- The must-have loop of `SearchFilter.matches` (src/core/filter.py:116)
and the final acceptance: the first required keyword missing from the
features+description text rejects; otherwise the listing is accepted. -/
def mustStage (f : SearchFilter) (features : List String) (description : String) :
    MatchResult :=
  let feature_text := String.intercalate " " features ++ " " ++ description
  match f.must_have.find? (fun required => !isSubstr required feature_text) with
  | some required =>
    ⟨false, "Missing required feature: '" ++ required ++ "'", ""⟩
  | none => ⟨true, "", f.name⟩

/-- The exclude-keyword loop of `SearchFilter.matches`
(src/core/filter.py:110): the first configured keyword contained in the
title+description text rejects. -/
def excludeStage (f : SearchFilter) (title description : String)
    (features : List String) : MatchResult :=
  let full_text := title ++ " " ++ description
  match f.exclude_keywords.find? (fun keyword => isSubstr keyword full_text) with
  | some keyword =>
    ⟨false, "Contains excluded keyword: '" ++ keyword ++ "'", ""⟩
  | none => mustStage f features description

/-- The property-type check of `SearchFilter.matches`
(src/core/filter.py:104): only performed when types are configured and the
`property_type` of the listing is non-empty. -/
def typeStage (f : SearchFilter) (property_type title description : String)
    (features : List String) : MatchResult :=
  if ¬f.property_types.isEmpty ∧ property_type ≠ "" then
    if ¬f.property_types.any (fun pt => isSubstr pt property_type) then
      ⟨false, "Property type '" ++ property_type ++ "' not in allowed types", ""⟩
    else excludeStage f title description features
  else excludeStage f title description features

/-- The area check of `SearchFilter.matches` (src/core/filter.py:98). -/
def areaStage (f : SearchFilter) (area address property_type title description : String)
    (features : List String) : MatchResult :=
  if ¬f.areas.isEmpty then
    let location_text := String.mk (trimList (area ++ " " ++ address).toList)
    if ¬matchesAnyArea f.areas location_text then
      ⟨false, "Location '" ++ (if area ≠ "" then area else address) ++
        "' not in target areas", ""⟩
    else typeStage f property_type title description features
  else typeStage f property_type title description features

/-- The bedroom check of `SearchFilter.matches` (src/core/filter.py:91):
only performed when `bedrooms ≥ 0` (`-1` means unknown). -/
def bedsStage (f : SearchFilter) (bedrooms : Int)
    (area address property_type title description : String)
    (features : List String) : MatchResult :=
  if bedrooms ≥ 0 then
    if bedrooms < f.min_beds then
      ⟨false, toString bedrooms ++ " beds below minimum " ++ toString f.min_beds, ""⟩
    else if exceedsMax f.max_beds bedrooms then
      ⟨false, toString bedrooms ++ " beds above maximum " ++
        toString ((f.max_beds).getD 0), ""⟩
    else areaStage f area address property_type title description features
  else areaStage f area address property_type title description features

/-- The price check of `SearchFilter.matches` (src/core/filter.py:84):
only performed when `price > 0` (`0` means unknown). -/
def priceStage (f : SearchFilter) (price bedrooms : Int)
    (area address property_type title description : String)
    (features : List String) : MatchResult :=
  if price > 0 then
    if price < f.min_price then
      ⟨false, "Price €" ++ toString price ++ " below minimum €" ++
        toString f.min_price, ""⟩
    else if exceedsMax f.max_price price then
      ⟨false, "Price €" ++ toString price ++ " above maximum €" ++
        toString ((f.max_price).getD 0), ""⟩
    else bedsStage f bedrooms area address property_type title description features
  else bedsStage f bedrooms area address property_type title description features

/-- `SearchFilter.matches` on a `Listing` (src/core/filter.py:55): extract
and lower-case the fields, then run the checks in their source order. -/
def SearchFilter.«matches» (f : SearchFilter) (l : Listing) : MatchResult :=
  priceStage f l.price l.bedrooms (lowerStr l.area) (lowerStr l.address)
    (lowerStr l.property_type) (lowerStr l.title) (lowerStr l.description)
    (l.features.map lowerStr)

/-- `FilterManager.__init__` (src/core/filter.py:162): load a
`SearchFilter` for every search profile whose `active` flag is set. -/
def FilterManager.ofConfigs (searches : List SearchConfig) : List SearchFilter :=
  (searches.filter (fun c => c.active)).map SearchFilter.ofConfig

/-- The loop of `FilterManager.matches_any` (src/core/filter.py:198):
return acceptance at the first filter that matches; otherwise collect the
rejection reasons and report the first one. -/
def matchesAnyAux (l : Listing) : List SearchFilter → List String → MatchResult
  | [], reasons => ⟨false, reasons.headD "No match", ""⟩
  | f :: rest, reasons =>
    let r := f.«matches» l
    if r.«matches» then ⟨true, "", f.name⟩
    else matchesAnyAux l rest (reasons ++ [f.name ++ ": " ++ r.reason])

/-- `FilterManager.matches_any` (src/core/filter.py:185): with no
configured filters every listing is accepted; otherwise the filters are
tried in order. -/
def FilterManager.matchesAny (filters : List SearchFilter) (l : Listing) :
    MatchResult :=
  if filters.isEmpty then ⟨true, "No filters configured", "default"⟩
  else matchesAnyAux l filters []

/-- The listing id under which `Database.add_listing`
(src/core/database.py:132) stores a listing dict produced by
`Listing.to_dict`: the `id` field, or `{source}_{original_id}` when `id`
is empty — and `to_dict` never produces an `original_id` key, so that
fallback is `source ++ "_"`. -/
def effectiveId (l : Listing) : String :=
  if l.id ≠ "" then l.id else l.source ++ "_"

/-- `Database.add_listing` (src/core/database.py:132) over the set of
already-stored ids: return `false` and leave the store unchanged when the
id exists, otherwise insert and return `true`. -/
def addListing (db : List String) (l : Listing) : Bool × List String :=
  let lid := effectiveId l
  if db.contains lid then (false, db)
  else (true, db ++ [lid])

/-- One scraper outcome as seen by `ListingAggregator._safe_fetch`
(src/core/aggregator.py:126): either the fetched listings or a raised
exception, which is caught and converted to the empty list. -/
def safeFetch (r : Except String (List Listing)) : List Listing :=
  match r with
  | .ok ls => ls
  | .error _ => []

/-- `ListingAggregator.fetch_all` (src/core/aggregator.py:92) over the
per-scraper outcomes: with no scrapers return `[]`; otherwise every
outcome contributes its listings (empty on error) and the contributions
are concatenated. The source collects futures as they complete, so the
relative order of different scrapers is scheduler-dependent; this
embedding fixes the configuration order, which is one of its admissible
interleavings. -/
def fetch_all (results : List (Except String (List Listing))) : List Listing :=
  if results.isEmpty then []
  else (results.map safeFetch).flatten

/-- The loop of `ListingAggregator.process_new_listings`
(src/core/aggregator.py:155): each fetched listing is added to the
database; a listing whose `add_listing` returned `true` is appended to the
result whenever `matches_any(listing)` is truthy — and, the returned
`MatchResult` being an object, it always is (`MatchResult.toBool`). -/
def processNewListingsAux (filters : List SearchFilter) :
    List Listing → List String → List Listing × List String
  | [], db => ([], db)
  | l :: rest, db =>
    let step := addListing db l
    let tail := processNewListingsAux filters rest step.2
    if step.1 then
      if (FilterManager.matchesAny filters l).toBool then (l :: tail.1, tail.2)
      else (tail.1, tail.2)
    else tail

/-- `ListingAggregator.process_new_listings` (src/core/aggregator.py:141)
given the fetched listings (the output of `fetch_all`) and the stored ids:
the returned new listings together with the final stored ids. -/
def process_new_listings (filters : List SearchFilter) (db : List String)
    (fetched : List Listing) : List Listing × List String :=
  processNewListingsAux filters fetched db

/-- Claim-side predicate: the price check passes (price unknown, or within
the configured range). -/
def pricePasses (f : SearchFilter) (price : Int) : Bool :=
  price ≤ 0 || (f.min_price ≤ price && !exceedsMax f.max_price price)

/-- Claim-side predicate: the bedroom check passes (bedrooms unknown, or
within the configured range). -/
def bedsPasses (f : SearchFilter) (bedrooms : Int) : Bool :=
  bedrooms < 0 || (f.min_beds ≤ bedrooms && !exceedsMax f.max_beds bedrooms)

/-- The combined location text of the area check:
`f"{area} {address}".strip()`. -/
def locationTextOf (area address : String) : String :=
  String.mk (trimList (area ++ " " ++ address).toList)

/-- Claim-side predicate: the area check passes (no target areas, or the
location text matches one). -/
def areaPasses (f : SearchFilter) (area address : String) : Bool :=
  f.areas.isEmpty || matchesAnyArea f.areas (locationTextOf area address)

/-- Claim-side predicate: the property-type check passes (no configured
types, empty listing type, or some configured type contained in it). -/
def typePasses (f : SearchFilter) (property_type : String) : Bool :=
  f.property_types.isEmpty || property_type == "" ||
    f.property_types.any (fun pt => isSubstr pt property_type)

/-- Claim-side predicate: no exclude keyword occurs in the
title+description text. -/
def excludePasses (f : SearchFilter) (title description : String) : Bool :=
  f.exclude_keywords.all (fun keyword => !isSubstr keyword (title ++ " " ++ description))

/-- Claim-side predicate: every must-have keyword occurs in the
features+description text. -/
def mustPasses (f : SearchFilter) (features : List String) (description : String) :
    Bool :=
  f.must_have.all
    (fun required => isSubstr required (String.intercalate " " features ++ " " ++ description))

/-- The rejection reason produced by a failing price check. -/
def priceFailReason (f : SearchFilter) (price : Int) : String :=
  if price < f.min_price then
    "Price €" ++ toString price ++ " below minimum €" ++ toString f.min_price
  else
    "Price €" ++ toString price ++ " above maximum €" ++ toString ((f.max_price).getD 0)

/-- The rejection reason produced by a failing bedroom check. -/
def bedsFailReason (f : SearchFilter) (bedrooms : Int) : String :=
  if bedrooms < f.min_beds then
    toString bedrooms ++ " beds below minimum " ++ toString f.min_beds
  else
    toString bedrooms ++ " beds above maximum " ++ toString ((f.max_beds).getD 0)

/-- The rejection reason produced by a failing area check. -/
def areaFailReason (area address : String) : String :=
  "Location '" ++ (if area ≠ "" then area else address) ++ "' not in target areas"

/-- The rejection reason produced by a failing property-type check. -/
def typeFailReason (property_type : String) : String :=
  "Property type '" ++ property_type ++ "' not in allowed types"

/-- The rejection reason produced by a failing exclude-keyword check: it
names the first triggered keyword. -/
def excludeFailReason (f : SearchFilter) (title description : String) : String :=
  "Contains excluded keyword: '" ++
    ((f.exclude_keywords.find?
      (fun keyword => isSubstr keyword (title ++ " " ++ description))).getD "") ++ "'"

/-- The rejection reason produced by a failing must-have check: it names
the first missing keyword. -/
def mustFailReason (f : SearchFilter) (features : List String) (description : String) :
    String :=
  "Missing required feature: '" ++
    ((f.must_have.find?
      (fun required =>
        !isSubstr required (String.intercalate " " features ++ " " ++ description))).getD "")
    ++ "'"

theorem lowerChar_isDigit (c : Char) : (lowerChar c).isDigit = c.isDigit := by
  unfold lowerChar
  split <;> rfl

theorem runsByAux_nil_of_none (p : Char → Bool) (l : List Char)
    (h : ∀ c ∈ l, p c = false) : runsByAux p l [] = [] := by
  induction l with
  | nil => rfl
  | cons c rest ih =>
    have hc := h c (List.mem_cons_self ..)
    simp only [runsByAux, hc, Bool.false_eq_true, if_false, List.isEmpty_nil, if_true]
    exact ih (fun x hx => h x (List.mem_cons_of_mem _ hx))

/-- A digit-free string yields no digit runs after lower-casing and comma
removal, hence price 0. -/
theorem normalize_price_of_digit_free (s : String)
    (h : ∀ c ∈ s.toList, c.isDigit = false) : normalize_price s = 0 := by
  unfold normalize_price
  split
  · rfl
  · have hruns : digitRuns (((lowerStr s).toList).filter (fun c => c ≠ ',')) = [] := by
      apply runsByAux_nil_of_none
      intro c hc
      have hc2 : c ∈ (lowerStr s).toList := (List.mem_filter.mp hc).1
      have hc3 : c ∈ s.toList.map lowerChar := hc2
      obtain ⟨c0, hc0, rfl⟩ := List.mem_map.mp hc3
      rw [lowerChar_isDigit]
      exact h c0 hc0
    simp only [hruns]

/-- C3 (corrected): the price normalizer maps "€1,800 per month" to 1800,
"€450 per week" to 1948 (the weekly factor 4.33 gives 450 × 4.33 = 1948.5,
truncated to 1948, not 1949), "1,800 EUR" to 1800, and any empty or
digit-free input to 0. -/
theorem normalize_price_spec :
    normalize_price "€1,800 per month" = 1800 ∧
    normalize_price "€450 per week" = 1948 ∧
    normalize_price "1,800 EUR" = 1800 ∧
    normalize_price "" = 0 ∧
    ∀ s : String, (∀ c ∈ s.toList, c.isDigit = false) → normalize_price s = 0 := by
  refine ⟨by decide, by decide, by decide, rfl, ?_⟩
  exact normalize_price_of_digit_free

/-- Witness for C3: the universal digit-free clause applied at "POA". -/
theorem normalize_price_spec_witness : normalize_price "POA" = 0 :=
  normalize_price_spec.2.2.2.2 "POA" (by decide)

/-- Counterexample to C3 as stated: on "€450 per week" the code computes
1948, not the claimed 1949. -/
theorem normalize_price_weekly_not_1949 :
    normalize_price "€450 per week" ≠ 1949 := by decide

/-- C9 (code bug): the area normalizer is claimed to strip only a leading
"Co." qualifier and otherwise preserve letters up to casing, but the
substitution `\bCo\.?\s*` fires on every word starting with "co": "Cork"
becomes "Rk". The intended case "Co. Dublin" → "Dublin" does work. -/
theorem normalize_area_cork :
    normalize_area "Cork" = "Rk" ∧ normalize_area "Co. Dublin" = "Dublin" := by
  exact ⟨by decide, by decide⟩

/-- C6: with zero configured search profiles, `matches_any` accepts every
listing (fail-open). -/
theorem matchesAny_no_filters_accepts (l : Listing) :
    (FilterManager.matchesAny [] l).«matches» = true := rfl

/-- C4 (code bug): with configured area "Dublin 2", the area check accepts
"D2", "Dublin2" and "dublin 2" and rejects "Dublin 12" as claimed — but it
also ACCEPTS "Dublin 20", because the direct substring test
`area in location_lower` runs before the word-boundary regex patterns and
"dublin 2" is a substring of "dublin 20". -/
theorem area_alias_dublin2 :
    matchesAnyArea (SearchFilter.ofConfig { areas := ["Dublin 2"] }).areas "D2" = true ∧
    matchesAnyArea (SearchFilter.ofConfig { areas := ["Dublin 2"] }).areas "Dublin2" = true ∧
    matchesAnyArea (SearchFilter.ofConfig { areas := ["Dublin 2"] }).areas "dublin 2" = true ∧
    matchesAnyArea (SearchFilter.ofConfig { areas := ["Dublin 2"] }).areas "Dublin 12" = false ∧
    matchesAnyArea (SearchFilter.ofConfig { areas := ["Dublin 2"] }).areas "Dublin 20" = true := by
  decide

/-- Counterexample to C5: with the configured area given in compact form
"D2", a location text "Dublin 2" is NOT matched — the expansion only
triggers for configured areas that start with "dublin". -/
theorem area_compact_d2_not_expanded :
    matchesAnyArea (SearchFilter.ofConfig { areas := ["D2"] }).areas "Dublin 2"
      = false := by
  decide

/-- C5 (amended): a configured area that does not start with "dublin"
after lower-casing (in particular the compact form "d2") is matched by
direct case-insensitive substring containment only; no expanded
"dublin <n>" form is recognised for it. -/
theorem area_nonDublin_substring_only (a loc : String)
    (h : "dublin".toList.isPrefixOf (lowerStr a).toList = false) :
    matchesAnyArea ((SearchFilter.ofConfig { areas := [a] }).areas) loc =
      isSubstrList (lowerStr a).toList (lowerStr loc).toList := by
  simp only [SearchFilter.ofConfig, matchesAnyArea]
  simp [← List.isPrefixOf_iff_prefix]
  intro hp
  have h3 : List.isPrefixOf ['d','u','b','l','i','n'] (lowerStr a).data = false := by
    simpa using h
  simp [hp] at h3

/-- Witness for C5: the amended statement applied at the compact
configured area "D2" and location "Dublin 2", where the direct substring
test fails. -/
theorem area_nonDublin_substring_only_witness :
    matchesAnyArea ((SearchFilter.ofConfig { areas := ["D2"] }).areas) "Dublin 2"
      = isSubstrList (lowerStr "D2").toList (lowerStr "Dublin 2").toList :=
  area_nonDublin_substring_only "D2" "Dublin 2" (by decide)

/-- C8: an adapter whose fetch raised contributes the empty list, and
`fetch_all` returns exactly the combined listings of the remaining
adapters (it is a total function of the outcomes: the exception is caught
inside `_safe_fetch` and never propagates). -/
theorem fetch_all_error_isolated (pre post : List (Except String (List Listing)))
    (e : String) :
    fetch_all (pre ++ Except.error e :: post) = fetch_all (pre ++ post) := by
  by_cases h : pre = [] ∧ post = []
  · obtain ⟨rfl, rfl⟩ := h
    simp [fetch_all, safeFetch]
  · have h1 : (pre ++ Except.error e :: post).isEmpty = false := by
      cases pre <;> simp
    have h2 : (pre ++ post).isEmpty = false := by
      rcases pre with _ | ⟨x, xs⟩
      · rcases post with _ | ⟨y, ys⟩
        · exact absurd ⟨rfl, rfl⟩ h
        · simp
      · simp
    simp [fetch_all, h1, h2, safeFetch]

theorem mustStage_eq (f : SearchFilter) (features : List String) (description : String) :
    mustStage f features description =
      if mustPasses f features description then ⟨true, "", f.name⟩
      else ⟨false, mustFailReason f features description, ""⟩ := by
  unfold mustStage mustPasses mustFailReason
  cases hf : f.must_have.find?
      (fun required =>
        !isSubstr required (String.intercalate " " features ++ " " ++ description)) with
  | none =>
    have hall : f.must_have.all
        (fun required =>
          isSubstr required (String.intercalate " " features ++ " " ++ description)) = true := by
      rw [List.all_eq_true]
      intro x hx
      have := List.find?_eq_none.mp hf x hx
      simpa using this
    simp [hf, hall]
  | some r =>
    have hr := List.find?_some hf
    have hmem := List.mem_of_find?_eq_some hf
    have hall : f.must_have.all
        (fun required =>
          isSubstr required (String.intercalate " " features ++ " " ++ description)) = false := by
      rw [Bool.eq_false_iff]
      intro hall
      rw [List.all_eq_true] at hall
      have := hall r hmem
      simp_all
    simp [hf, hall]

theorem excludeStage_eq (f : SearchFilter) (title description : String)
    (features : List String) :
    excludeStage f title description features =
      if excludePasses f title description then mustStage f features description
      else ⟨false, excludeFailReason f title description, ""⟩ := by
  unfold excludeStage excludePasses excludeFailReason
  cases hf : f.exclude_keywords.find?
      (fun keyword => isSubstr keyword (title ++ " " ++ description)) with
  | none =>
    have hall : f.exclude_keywords.all
        (fun keyword => !isSubstr keyword (title ++ " " ++ description)) = true := by
      rw [List.all_eq_true]
      intro x hx
      have := List.find?_eq_none.mp hf x hx
      simpa using this
    simp [hf, hall]
  | some k =>
    have hr := List.find?_some hf
    have hmem := List.mem_of_find?_eq_some hf
    have hall : f.exclude_keywords.all
        (fun keyword => !isSubstr keyword (title ++ " " ++ description)) = false := by
      rw [Bool.eq_false_iff]
      intro hall
      rw [List.all_eq_true] at hall
      have := hall k hmem
      simp_all
    simp [hf, hall]

theorem typeStage_eq (f : SearchFilter) (property_type title description : String)
    (features : List String) :
    typeStage f property_type title description features =
      if typePasses f property_type then excludeStage f title description features
      else ⟨false, typeFailReason property_type, ""⟩ := by
  unfold typeStage typePasses typeFailReason
  by_cases h1 : f.property_types.isEmpty = true <;>
    by_cases h2 : property_type = "" <;>
      by_cases h3 : f.property_types.any (fun pt => isSubstr pt property_type) = true <;>
        simp [h1, h2, h3]

theorem areaStage_eq (f : SearchFilter) (area address property_type title description : String)
    (features : List String) :
    areaStage f area address property_type title description features =
      if areaPasses f area address then
        typeStage f property_type title description features
      else ⟨false, areaFailReason area address, ""⟩ := by
  unfold areaStage areaPasses areaFailReason locationTextOf
  by_cases h1 : f.areas.isEmpty = true
  · simp [h1]
  · cases hm : matchesAnyArea f.areas (String.mk (trimList (area ++ " " ++ address).toList)) <;>
      simp at hm <;> simp [h1, hm]

theorem bedsStage_eq (f : SearchFilter) (bedrooms : Int)
    (area address property_type title description : String) (features : List String) :
    bedsStage f bedrooms area address property_type title description features =
      if bedsPasses f bedrooms then
        areaStage f area address property_type title description features
      else ⟨false, bedsFailReason f bedrooms, ""⟩ := by
  unfold bedsStage bedsPasses bedsFailReason
  by_cases h0 : bedrooms ≥ 0
  · have hneg : ¬(bedrooms < 0) := by omega
    by_cases h1 : bedrooms < f.min_beds
    · have h1b : ¬(f.min_beds ≤ bedrooms) := by omega
      simp [h0, h1, hneg, h1b]
    · have hle : f.min_beds ≤ bedrooms := by omega
      cases h2 : exceedsMax f.max_beds bedrooms <;> simp [h0, h1, hneg, hle, h2]
  · have hneg : bedrooms < 0 := by omega
    simp [h0, hneg]

theorem priceStage_eq (f : SearchFilter) (price bedrooms : Int)
    (area address property_type title description : String) (features : List String) :
    priceStage f price bedrooms area address property_type title description features =
      if pricePasses f price then
        bedsStage f bedrooms area address property_type title description features
      else ⟨false, priceFailReason f price, ""⟩ := by
  unfold priceStage pricePasses priceFailReason
  by_cases h0 : price > 0
  · have hpos : ¬(price ≤ 0) := by omega
    by_cases h1 : price < f.min_price
    · have h1b : ¬(f.min_price ≤ price) := by omega
      simp [h0, h1, hpos, h1b]
    · have hle : f.min_price ≤ price := by omega
      cases h2 : exceedsMax f.max_price price <;> simp [h0, h1, hpos, hle, h2]
  · have hneg : price ≤ 0 := by omega
    simp [h0, hneg]

/-- A profile configuring only a property type (used as a concrete
fixture). -/
def propertyTypeFilter : SearchFilter :=
  SearchFilter.ofConfig { name := "Apartments", property_types := ["apartment"] }

/-- A listing of property type "house" passing every other check. -/
def houseListing : Listing :=
  { id := "daft_h1", source := "daft", title := "Fine house", price := 0,
    bedrooms := -1, property_type := "house" }

/-- A listing with empty property type. -/
def emptyTypeListing : Listing :=
  { id := "daft_e1", source := "daft", title := "Anything", price := 0,
    bedrooms := -1 }

/-- A profile with a price cap and an exclude keyword. -/
def pricyFilter : SearchFilter :=
  SearchFilter.ofConfig
    { name := "Cheap", max_price := some 1000, exclude_keywords := ["bedsit"] }

/-- A listing violating both the price cap and the exclude keyword of
`pricyFilter`. -/
def pricyListing : Listing :=
  { id := "daft_p1", source := "daft", title := "Luxury bedsit", price := 5000,
    bedrooms := 1 }

/-- A profile with full price and bedroom ranges. -/
def rangeFilter : SearchFilter :=
  SearchFilter.ofConfig
    { name := "Range", min_price := 1500, max_price := some 2200, min_beds := 2,
      max_beds := some 3 }

/-- A listing with unknown price (0) and unknown bedrooms (-1). -/
def unknownListing : Listing :=
  { id := "daft_u1", source := "daft", title := "Mystery", price := 0,
    bedrooms := -1 }

/-- C2 (amended): `SearchFilter.matches` evaluates the checks in the fixed
order price, bedrooms, area, property type, exclude keywords, must-have
features; it short-circuits at the first failing check, returning exactly
that check's rejection reason, and returns full acceptance exactly when
all six checks pass. (The claim as stated omits the property-type check
between area and exclude keywords.) -/
theorem matches_check_order (f : SearchFilter) (l : Listing) :
    (pricePasses f l.price = false →
      f.«matches» l = ⟨false, priceFailReason f l.price, ""⟩) ∧
    (pricePasses f l.price = true → bedsPasses f l.bedrooms = false →
      f.«matches» l = ⟨false, bedsFailReason f l.bedrooms, ""⟩) ∧
    (pricePasses f l.price = true → bedsPasses f l.bedrooms = true →
      areaPasses f (lowerStr l.area) (lowerStr l.address) = false →
      f.«matches» l = ⟨false, areaFailReason (lowerStr l.area) (lowerStr l.address), ""⟩) ∧
    (pricePasses f l.price = true → bedsPasses f l.bedrooms = true →
      areaPasses f (lowerStr l.area) (lowerStr l.address) = true →
      typePasses f (lowerStr l.property_type) = false →
      f.«matches» l = ⟨false, typeFailReason (lowerStr l.property_type), ""⟩) ∧
    (pricePasses f l.price = true → bedsPasses f l.bedrooms = true →
      areaPasses f (lowerStr l.area) (lowerStr l.address) = true →
      typePasses f (lowerStr l.property_type) = true →
      excludePasses f (lowerStr l.title) (lowerStr l.description) = false →
      f.«matches» l =
        ⟨false, excludeFailReason f (lowerStr l.title) (lowerStr l.description), ""⟩) ∧
    (pricePasses f l.price = true → bedsPasses f l.bedrooms = true →
      areaPasses f (lowerStr l.area) (lowerStr l.address) = true →
      typePasses f (lowerStr l.property_type) = true →
      excludePasses f (lowerStr l.title) (lowerStr l.description) = true →
      mustPasses f (l.features.map lowerStr) (lowerStr l.description) = false →
      f.«matches» l =
        ⟨false, mustFailReason f (l.features.map lowerStr) (lowerStr l.description), ""⟩) ∧
    (pricePasses f l.price = true → bedsPasses f l.bedrooms = true →
      areaPasses f (lowerStr l.area) (lowerStr l.address) = true →
      typePasses f (lowerStr l.property_type) = true →
      excludePasses f (lowerStr l.title) (lowerStr l.description) = true →
      mustPasses f (l.features.map lowerStr) (lowerStr l.description) = true →
      f.«matches» l = ⟨true, "", f.name⟩) := by
  have e1 := priceStage_eq f l.price l.bedrooms (lowerStr l.area) (lowerStr l.address)
    (lowerStr l.property_type) (lowerStr l.title) (lowerStr l.description)
    (l.features.map lowerStr)
  have e2 := bedsStage_eq f l.bedrooms (lowerStr l.area) (lowerStr l.address)
    (lowerStr l.property_type) (lowerStr l.title) (lowerStr l.description)
    (l.features.map lowerStr)
  have e3 := areaStage_eq f (lowerStr l.area) (lowerStr l.address)
    (lowerStr l.property_type) (lowerStr l.title) (lowerStr l.description)
    (l.features.map lowerStr)
  have e4 := typeStage_eq f (lowerStr l.property_type) (lowerStr l.title)
    (lowerStr l.description) (l.features.map lowerStr)
  have e5 := excludeStage_eq f (lowerStr l.title) (lowerStr l.description)
    (l.features.map lowerStr)
  have e6 := mustStage_eq f (l.features.map lowerStr) (lowerStr l.description)
  refine ⟨?_, ?_, ?_, ?_, ?_, ?_, ?_⟩
  · intro h1
    simp [SearchFilter.«matches», e1, h1]
  · intro h1 h2
    simp [SearchFilter.«matches», e1, e2, h1, h2]
  · intro h1 h2 h3
    simp [SearchFilter.«matches», e1, e2, e3, h1, h2, h3]
  · intro h1 h2 h3 h4
    simp [SearchFilter.«matches», e1, e2, e3, e4, h1, h2, h3, h4]
  · intro h1 h2 h3 h4 h5
    simp [SearchFilter.«matches», e1, e2, e3, e4, e5, h1, h2, h3, h4, h5]
  · intro h1 h2 h3 h4 h5 h6
    simp [SearchFilter.«matches», e1, e2, e3, e4, e5, e6, h1, h2, h3, h4, h5, h6]
  · intro h1 h2 h3 h4 h5 h6
    simp [SearchFilter.«matches», e1, e2, e3, e4, e5, e6, h1, h2, h3, h4, h5, h6]

/-- Witness for C2: a listing violating both the price cap and an exclude
keyword is rejected with the price reason (the price check runs first). -/
theorem matches_check_order_witness :
    pricyFilter.«matches» pricyListing =
      ⟨false, priceFailReason pricyFilter pricyListing.price, ""⟩ :=
  (matches_check_order pricyFilter pricyListing).1 (by decide)

/-- Counterexample to C2 as stated: all five checks the claim names
(price, bedrooms, area, exclude keywords, must-have) pass, yet the listing
is not accepted — the property-type check the claim omits rejects it. -/
theorem matches_claimed_order_counterexample :
    pricePasses propertyTypeFilter houseListing.price = true ∧
    bedsPasses propertyTypeFilter houseListing.bedrooms = true ∧
    areaPasses propertyTypeFilter (lowerStr houseListing.area)
      (lowerStr houseListing.address) = true ∧
    excludePasses propertyTypeFilter (lowerStr houseListing.title)
      (lowerStr houseListing.description) = true ∧
    mustPasses propertyTypeFilter (houseListing.features.map lowerStr)
      (lowerStr houseListing.description) = true ∧
    (propertyTypeFilter.«matches» houseListing).«matches» = false := by
  decide

/-- C7: an unknown price (0) makes the price check the identity — the
listing proceeds to the bedroom check untouched — and the unknown-bedrooms
sentinel (-1) makes the bedroom check the identity, so such a listing can
only be rejected by a later check. -/
theorem unknown_sentinels_pass (f : SearchFilter) (l : Listing) :
    (l.price = 0 →
      f.«matches» l =
        bedsStage f l.bedrooms (lowerStr l.area) (lowerStr l.address)
          (lowerStr l.property_type) (lowerStr l.title) (lowerStr l.description)
          (l.features.map lowerStr)) ∧
    (l.bedrooms = -1 →
      bedsStage f l.bedrooms (lowerStr l.area) (lowerStr l.address)
          (lowerStr l.property_type) (lowerStr l.title) (lowerStr l.description)
          (l.features.map lowerStr) =
        areaStage f (lowerStr l.area) (lowerStr l.address) (lowerStr l.property_type)
          (lowerStr l.title) (lowerStr l.description) (l.features.map lowerStr)) := by
  constructor
  · intro h
    unfold SearchFilter.«matches» priceStage
    simp [h]
  · intro h
    unfold bedsStage
    simp [h]

/-- Witness for C7: a profile with full price and bedroom ranges does not
reject a listing with price 0 and bedrooms -1 at those two checks. -/
theorem unknown_sentinels_pass_witness :
    (rangeFilter.«matches» unknownListing =
      bedsStage rangeFilter unknownListing.bedrooms (lowerStr unknownListing.area)
        (lowerStr unknownListing.address) (lowerStr unknownListing.property_type)
        (lowerStr unknownListing.title) (lowerStr unknownListing.description)
        (unknownListing.features.map lowerStr)) ∧
    (bedsStage rangeFilter unknownListing.bedrooms (lowerStr unknownListing.area)
        (lowerStr unknownListing.address) (lowerStr unknownListing.property_type)
        (lowerStr unknownListing.title) (lowerStr unknownListing.description)
        (unknownListing.features.map lowerStr) =
      areaStage rangeFilter (lowerStr unknownListing.area)
        (lowerStr unknownListing.address) (lowerStr unknownListing.property_type)
        (lowerStr unknownListing.title) (lowerStr unknownListing.description)
        (unknownListing.features.map lowerStr)) :=
  ⟨(unknown_sentinels_pass rangeFilter unknownListing).1 rfl,
   (unknown_sentinels_pass rangeFilter unknownListing).2 rfl⟩

/-- C10: when property types are configured, `matches` runs a
property-type check after the area check and before the exclude-keyword
check: a non-empty property type containing none of the configured types
is rejected with the property-type reason (whatever the later checks would
say), and an empty property type always passes this check. -/
theorem property_type_check (f : SearchFilter) (l : Listing)
    (hconf : f.property_types ≠ []) :
    (pricePasses f l.price = true → bedsPasses f l.bedrooms = true →
      areaPasses f (lowerStr l.area) (lowerStr l.address) = true →
      lowerStr l.property_type ≠ "" →
      f.property_types.any (fun pt => isSubstr pt (lowerStr l.property_type)) = false →
      f.«matches» l = ⟨false, typeFailReason (lowerStr l.property_type), ""⟩) ∧
    (lowerStr l.property_type = "" →
      typeStage f (lowerStr l.property_type) (lowerStr l.title) (lowerStr l.description)
          (l.features.map lowerStr) =
        excludeStage f (lowerStr l.title) (lowerStr l.description)
          (l.features.map lowerStr)) := by
  constructor
  · intro h1 h2 h3 h4 h5
    have ht : typePasses f (lowerStr l.property_type) = false := by
      unfold typePasses
      simp [hconf, h4, h5]
    have e1 := priceStage_eq f l.price l.bedrooms (lowerStr l.area) (lowerStr l.address)
      (lowerStr l.property_type) (lowerStr l.title) (lowerStr l.description)
      (l.features.map lowerStr)
    have e2 := bedsStage_eq f l.bedrooms (lowerStr l.area) (lowerStr l.address)
      (lowerStr l.property_type) (lowerStr l.title) (lowerStr l.description)
      (l.features.map lowerStr)
    have e3 := areaStage_eq f (lowerStr l.area) (lowerStr l.address)
      (lowerStr l.property_type) (lowerStr l.title) (lowerStr l.description)
      (l.features.map lowerStr)
    have e4 := typeStage_eq f (lowerStr l.property_type) (lowerStr l.title)
      (lowerStr l.description) (l.features.map lowerStr)
    simp [SearchFilter.«matches», e1, e2, e3, e4, h1, h2, h3, ht]
  · intro h
    unfold typeStage
    simp [h]

/-- Witness for C10: the "house" listing is rejected by the configured
"apartment" type with the property-type reason, and the empty-type listing
passes the type check untouched. -/
theorem property_type_check_witness :
    (propertyTypeFilter.«matches» houseListing =
      ⟨false, typeFailReason (lowerStr houseListing.property_type), ""⟩) ∧
    (typeStage propertyTypeFilter (lowerStr emptyTypeListing.property_type)
        (lowerStr emptyTypeListing.title) (lowerStr emptyTypeListing.description)
        (emptyTypeListing.features.map lowerStr) =
      excludeStage propertyTypeFilter (lowerStr emptyTypeListing.title)
        (lowerStr emptyTypeListing.description)
        (emptyTypeListing.features.map lowerStr)) :=
  ⟨(property_type_check propertyTypeFilter houseListing (by decide)).1
      (by decide) (by decide) (by decide) (by decide) (by decide),
   (property_type_check propertyTypeFilter emptyTypeListing (by decide)).2 rfl⟩

/-- A budget profile. -/
def cheapFilter : SearchFilter :=
  SearchFilter.ofConfig { name := "Budget", max_price := some 1000 }

/-- A listing over the budget cap. -/
def expensiveListing : Listing :=
  { id := "daft_x9", source := "daft", title := "Penthouse", price := 5000,
    bedrooms := 2 }

/-- C1 (code bug): the run cycle is claimed to return exactly the newly
inserted listings matching some active profile, but
`if self.filter_manager.matches_any(listing):` tests the truthiness of the
returned `MatchResult` object, which is always truthy — the result does
not depend on the filters at all, and a newly inserted listing rejected by
every profile is still returned. -/
theorem process_new_listings_ignores_filter :
    (∀ (fs1 fs2 : List SearchFilter) (db : List String) (fetched : List Listing),
      process_new_listings fs1 db fetched = process_new_listings fs2 db fetched) ∧
    (FilterManager.matchesAny [cheapFilter] expensiveListing).«matches» = false ∧
    process_new_listings [cheapFilter] [] [expensiveListing] =
      ([expensiveListing], ["daft_x9"]) := by
  refine ⟨?_, by decide, by decide⟩
  intro fs1 fs2 db fetched
  unfold process_new_listings
  induction fetched generalizing db with
  | nil => rfl
  | cons l rest ih => simp [processNewListingsAux, MatchResult.toBool, ih]

end FindAHouse
